import Mathlib

set_option maxRecDepth 10000

/-!
Verification of the builtin-object subsystem of the jerryscript engine
(`src/libecmabuiltins/ecma-builtins.c` and
`src/libecmabuiltins/ecma-builtin-global-object.c`), as a shallow embedding.
Pointers are modelled as natural numbers produced by a monotone allocation
counter, the process-wide registry as a function from builtin ids to optional
object pointers, and fatal conditions (`JERRY_UNREACHABLE`,
`JERRY_UNIMPLEMENTED`) as a distinguished outcome constructor.
-/

/-! ## Modelled identifier spaces

The builtin id enumeration, the magic-string id enumeration and the bit-field
layout live in headers (`ecma-globals.h`, `ecma-builtins-internal.h`,
`jrt-bit-fields.h`) that are not part of the two given source files, so they
are modelled from the spec below.
-/

/-- Modelled from the spec: `BuiltinId` member (closed enumeration in
`ecma-globals.h`, not under `src/`). -/
def ECMA_BUILTIN_ID_GLOBAL : Nat := 0

/-- Modelled from the spec: `BuiltinId` member. -/
def ECMA_BUILTIN_ID_OBJECT : Nat := 1

/-- Modelled from the spec: `BuiltinId` member. -/
def ECMA_BUILTIN_ID_OBJECT_PROTOTYPE : Nat := 2

/-- Modelled from the spec: `BuiltinId` member. -/
def ECMA_BUILTIN_ID_FUNCTION : Nat := 3

/-- Modelled from the spec: `BuiltinId` member. -/
def ECMA_BUILTIN_ID_FUNCTION_PROTOTYPE : Nat := 4

/-- Modelled from the spec: `BuiltinId` member. -/
def ECMA_BUILTIN_ID_ARRAY : Nat := 5

/-- Modelled from the spec: `BuiltinId` member. -/
def ECMA_BUILTIN_ID_ARRAY_PROTOTYPE : Nat := 6

/-- Modelled from the spec: `BuiltinId` member. -/
def ECMA_BUILTIN_ID_STRING : Nat := 7

/-- Modelled from the spec: `BuiltinId` member. -/
def ECMA_BUILTIN_ID_STRING_PROTOTYPE : Nat := 8

/-- Modelled from the spec: `BuiltinId` member. -/
def ECMA_BUILTIN_ID_BOOLEAN : Nat := 9

/-- Modelled from the spec: `BuiltinId` member. -/
def ECMA_BUILTIN_ID_BOOLEAN_PROTOTYPE : Nat := 10

/-- Modelled from the spec: `BuiltinId` member. -/
def ECMA_BUILTIN_ID_NUMBER : Nat := 11

/-- Modelled from the spec: `BuiltinId` member. -/
def ECMA_BUILTIN_ID_NUMBER_PROTOTYPE : Nat := 12

/-- Modelled from the spec: `BuiltinId` member. -/
def ECMA_BUILTIN_ID_MATH : Nat := 13

/-- Modelled from the spec: `BuiltinId` member (the compact-profile error
variant). -/
def ECMA_BUILTIN_ID_COMPACT_PROFILE_ERROR : Nat := 14

/-- Modelled from the spec: the `COUNT` sentinel of the closed builtin id
enumeration; total count fixed at build time. -/
def ECMA_BUILTIN_ID__COUNT : Nat := 15

/-- Modelled from the spec: magic-string id (opaque id space with a total
order, interned in `ecma-globals.h`, not under `src/`).  The ids referenced by
the Global object's property-name table are assigned in strictly ascending
declaration order, matching the sortedness precondition the spec states and
the debug assertion in `ecma_builtin_bin_search_for_magic_string_id_in_array`
checks. -/
def ECMA_MAGIC_STRING_EVAL : Nat := 0

/-- Modelled from the spec: magic-string id. -/
def ECMA_MAGIC_STRING_UNDEFINED : Nat := 1

/-- Modelled from the spec: magic-string id. -/
def ECMA_MAGIC_STRING_NAN : Nat := 2

/-- Modelled from the spec: magic-string id. -/
def ECMA_MAGIC_STRING_INFINITY_UL : Nat := 3

/-- Modelled from the spec: magic-string id. -/
def ECMA_MAGIC_STRING_OBJECT_UL : Nat := 4

/-- Modelled from the spec: magic-string id. -/
def ECMA_MAGIC_STRING_FUNCTION_UL : Nat := 5

/-- Modelled from the spec: magic-string id. -/
def ECMA_MAGIC_STRING_ARRAY_UL : Nat := 6

/-- Modelled from the spec: magic-string id. -/
def ECMA_MAGIC_STRING_STRING_UL : Nat := 7

/-- Modelled from the spec: magic-string id. -/
def ECMA_MAGIC_STRING_BOOLEAN_UL : Nat := 8

/-- Modelled from the spec: magic-string id. -/
def ECMA_MAGIC_STRING_NUMBER_UL : Nat := 9

/-- Modelled from the spec: magic-string id. -/
def ECMA_MAGIC_STRING_DATE_UL : Nat := 10

/-- Modelled from the spec: magic-string id. -/
def ECMA_MAGIC_STRING_REG_EXP_UL : Nat := 11

/-- Modelled from the spec: magic-string id. -/
def ECMA_MAGIC_STRING_ERROR_UL : Nat := 12

/-- Modelled from the spec: magic-string id. -/
def ECMA_MAGIC_STRING_EVAL_ERROR_UL : Nat := 13

/-- Modelled from the spec: magic-string id. -/
def ECMA_MAGIC_STRING_RANGE_ERROR_UL : Nat := 14

/-- Modelled from the spec: magic-string id. -/
def ECMA_MAGIC_STRING_REFERENCE_ERROR_UL : Nat := 15

/-- Modelled from the spec: magic-string id. -/
def ECMA_MAGIC_STRING_SYNTAX_ERROR_UL : Nat := 16

/-- Modelled from the spec: magic-string id. -/
def ECMA_MAGIC_STRING_TYPE_ERROR_UL : Nat := 17

/-- Modelled from the spec: magic-string id. -/
def ECMA_MAGIC_STRING_URI_ERROR_UL : Nat := 18

/-- Modelled from the spec: magic-string id. -/
def ECMA_MAGIC_STRING_MATH_UL : Nat := 19

/-- Modelled from the spec: magic-string id. -/
def ECMA_MAGIC_STRING_JSON_U : Nat := 20

/-- Modelled from the spec: magic-string id. -/
def ECMA_MAGIC_STRING_PARSE_INT : Nat := 21

/-- Modelled from the spec: magic-string id. -/
def ECMA_MAGIC_STRING_PARSE_FLOAT : Nat := 22

/-- Modelled from the spec: magic-string id. -/
def ECMA_MAGIC_STRING_IS_NAN : Nat := 23

/-- Modelled from the spec: magic-string id. -/
def ECMA_MAGIC_STRING_IS_FINITE : Nat := 24

/-- Modelled from the spec: magic-string id. -/
def ECMA_MAGIC_STRING_DECODE_URI : Nat := 25

/-- Modelled from the spec: magic-string id. -/
def ECMA_MAGIC_STRING_DECODE_URI_COMPONENT : Nat := 26

/-- Modelled from the spec: magic-string id. -/
def ECMA_MAGIC_STRING_ENCODE_URI : Nat := 27

/-- Modelled from the spec: magic-string id. -/
def ECMA_MAGIC_STRING_ENCODE_URI_COMPONENT : Nat := 28

/-- Modelled from the spec: magic-string id. -/
def ECMA_MAGIC_STRING_COMPACT_PROFILE_ERROR_UL : Nat := 29

/-- Modelled from the spec: magic-string id of the `length` property name. -/
def ECMA_MAGIC_STRING_LENGTH : Nat := 30

/-- Modelled from the spec: magic-string id space `COUNT` sentinel. -/
def ECMA_MAGIC_STRING__COUNT : Nat := 64

/-! ## Bit-field utilities and the routine call encoding

`jrt_set_bit_field_value` and `jrt_extract_bit_field` live in
`jrt-bit-fields.h`, which is not under `src/`; they are modelled from the spec
as the standard read/modify/write operations on a 64-bit container.  The field
positions and widths come from `ecma-builtins-internal.h` (also not under
`src/`); the model places the owning builtin id in bits `[0, 8)` and the
routine's magic-string id in bits `[8, 24)`, which satisfies the spec's
requirements that both sub-fields round-trip with no precision loss and that
the total width fits the 32-bit internal-property container. -/

/-- Modelled from the spec: `jrt_set_bit_field_value` (from `jrt-bit-fields.h`,
not under `src/`) stores `value` into the bit field of `container` that starts
at bit `lsb` and is `width` bits wide, leaving all other bits unchanged. -/
def jrt_set_bit_field_value (container value lsb width : Nat) : Nat :=
  (container &&& ((2 ^ 64 - 1) ^^^ ((2 ^ width - 1) <<< lsb))) |||
    ((value <<< lsb) &&& ((2 ^ width - 1) <<< lsb))

/-- Modelled from the spec: `jrt_extract_bit_field` (from `jrt-bit-fields.h`,
not under `src/`) reads the bit field of `container` that starts at bit `lsb`
and is `width` bits wide. -/
def jrt_extract_bit_field (container lsb width : Nat) : Nat :=
  (container >>> lsb) &&& (2 ^ width - 1)

/-- Modelled from the spec: position of the owning-builtin-id sub-field of the
packed routine encoding (`ecma-builtins-internal.h`, not under `src/`). -/
def ECMA_BUILTIN_ROUTINE_ID_BUILT_IN_OBJECT_ID_POS : Nat := 0

/-- Modelled from the spec: width of the owning-builtin-id sub-field. -/
def ECMA_BUILTIN_ROUTINE_ID_BUILT_IN_OBJECT_ID_WIDTH : Nat := 8

/-- Modelled from the spec: position of the routine-magic-string-id sub-field
of the packed routine encoding. -/
def ECMA_BUILTIN_ROUTINE_ID_BUILT_IN_ROUTINE_ID_POS : Nat := 8

/-- Modelled from the spec: width of the routine-magic-string-id sub-field. -/
def ECMA_BUILTIN_ROUTINE_ID_BUILT_IN_ROUTINE_ID_WIDTH : Nat := 16

/-- Packing of `(builtin_id, routine_id)` exactly as performed by
`ecma_builtin_make_function_object_for_routine`: two successive
`jrt_set_bit_field_value` writes into an initially zero container. -/
def ecma_builtin_routine_pack (builtin_id routine_id : Nat) : Nat :=
  jrt_set_bit_field_value
    (jrt_set_bit_field_value 0 builtin_id
      ECMA_BUILTIN_ROUTINE_ID_BUILT_IN_OBJECT_ID_POS
      ECMA_BUILTIN_ROUTINE_ID_BUILT_IN_OBJECT_ID_WIDTH)
    routine_id
    ECMA_BUILTIN_ROUTINE_ID_BUILT_IN_ROUTINE_ID_POS
    ECMA_BUILTIN_ROUTINE_ID_BUILT_IN_ROUTINE_ID_WIDTH

/-- Extraction of the owning builtin id exactly as performed by
`ecma_builtin_dispatch_call`. -/
def ecma_builtin_routine_unpack_object_id (packed : Nat) : Nat :=
  jrt_extract_bit_field packed
    ECMA_BUILTIN_ROUTINE_ID_BUILT_IN_OBJECT_ID_POS
    ECMA_BUILTIN_ROUTINE_ID_BUILT_IN_OBJECT_ID_WIDTH

/-- Extraction of the routine's magic-string id exactly as performed by
`ecma_builtin_dispatch_call`. -/
def ecma_builtin_routine_unpack_routine_id (packed : Nat) : Nat :=
  jrt_extract_bit_field packed
    ECMA_BUILTIN_ROUTINE_ID_BUILT_IN_ROUTINE_ID_POS
    ECMA_BUILTIN_ROUTINE_ID_BUILT_IN_ROUTINE_ID_WIDTH

/-! ## Binary search (`ecma_builtin_bin_search_for_magic_string_id_in_array`)

The loop is embedded with an explicit fuel argument; the entry point hands the
loop `length + 1` units of fuel, which is shown below to be enough for the
loop to run to its natural exit. -/

/-- Loop body of `ecma_builtin_bin_search_for_magic_string_id_in_array`:
`lo`/`hi` play the roles of the C variables `min`/`max`, and the fuel bounds
the number of iterations (it never runs out when seeded by the entry
point). -/
def bin_search_go (ids : List Nat) (key : Nat) : Nat → Int → Int → Int
  | 0, _, _ => -1
  | fuel + 1, lo, hi =>
    if lo ≤ hi then
      let mid : Int := (lo + hi) / 2
      if ids.getD mid.toNat 0 = key then mid
      else if ids.getD mid.toNat 0 > key then bin_search_go ids key fuel lo (mid - 1)
      else bin_search_go ids key fuel (mid + 1) hi
    else -1

/-- Binary search for a magic-string id in a sorted array; returns the index
of the identifier if it is contained in the array and `-1` otherwise
(`ecma_builtin_bin_search_for_magic_string_id_in_array`). -/
def ecma_builtin_bin_search_for_magic_string_id_in_array
    (ids : List Nat) (key : Nat) : Int :=
  bin_search_go ids key (ids.length + 1) 0 ((ids.length : Int) - 1)

example : ecma_builtin_bin_search_for_magic_string_id_in_array [1, 3, 5] 3 = 1 := by decide
example : ecma_builtin_bin_search_for_magic_string_id_in_array [1, 3, 5] 4 = -1 := by decide
example : ecma_builtin_bin_search_for_magic_string_id_in_array [] 4 = -1 := by decide
example : ecma_builtin_bin_search_for_magic_string_id_in_array [7] 7 = 0 := by decide

/-- Strict ascent of a sorted id array transported to `getD` indexing. -/
theorem sorted_getD_lt (ids : List Nat) (hs : List.Pairwise (· < ·) ids)
    {i j : Nat} (hij : i < j) (hj : j < ids.length) :
    ids.getD i 0 < ids.getD j 0 := by
  rw [List.getD_eq_getElem ids 0 (lt_trans hij hj), List.getD_eq_getElem ids 0 hj]
  exact List.pairwise_iff_getElem.mp hs i j (lt_trans hij hj) hj hij

/-- Invariant-based correctness of the binary search loop: provided the key
can only occur inside the window `[lo, hi]` and the fuel covers the window,
the loop either returns `-1` with no element equal to the key, or returns an
index holding the key. -/
theorem bin_search_go_spec (ids : List Nat) (key : Nat)
    (hs : List.Pairwise (· < ·) ids) :
    ∀ fuel : Nat, ∀ lo hi : Int, 0 ≤ lo → hi < (ids.length : Int) →
      (hi + 1 - lo).toNat ≤ fuel →
      (∀ j : Nat, j < ids.length → ids.getD j 0 = key → lo ≤ (j : Int) ∧ (j : Int) ≤ hi) →
      (bin_search_go ids key fuel lo hi = -1 ∧
        ∀ j : Nat, j < ids.length → ids.getD j 0 ≠ key) ∨
      (∃ i : Nat, i < ids.length ∧ ids.getD i 0 = key ∧
        bin_search_go ids key fuel lo hi = (i : Int)) := by
  intro fuel
  induction fuel with
  | zero =>
    intro lo hi hlo hhi hfuel hwin
    left
    refine ⟨rfl, ?_⟩
    intro j hj hkey
    have := hwin j hj hkey
    omega
  | succ fuel ih =>
    intro lo hi hlo hhi hfuel hwin
    by_cases hlohi : lo ≤ hi
    · have hmid1 : lo ≤ (lo + hi) / 2 := by omega
      have hmid2 : (lo + hi) / 2 ≤ hi := by omega
      have hmidlen : ((lo + hi) / 2).toNat < ids.length := by omega
      by_cases heq : ids.getD ((lo + hi) / 2).toNat 0 = key
      · right
        refine ⟨((lo + hi) / 2).toNat, hmidlen, heq, ?_⟩
        simp only [bin_search_go, if_pos hlohi, if_pos heq]
        omega
      · by_cases hgt : ids.getD ((lo + hi) / 2).toNat 0 > key
        · have hrec : bin_search_go ids key (fuel + 1) lo hi =
              bin_search_go ids key fuel lo ((lo + hi) / 2 - 1) := by
            simp only [bin_search_go, if_pos hlohi, if_neg heq, if_pos hgt]
          rw [hrec]
          refine ih lo ((lo + hi) / 2 - 1) hlo (by omega) (by omega) ?_
          intro j hj hkey
          have hold := hwin j hj hkey
          rcases lt_trichotomy (j : Int) ((lo + hi) / 2) with h | h | h
          · omega
          · exfalso
            have : j = ((lo + hi) / 2).toNat := by omega
            rw [this] at hkey
            exact heq hkey
          · exfalso
            have hlt : ids.getD ((lo + hi) / 2).toNat 0 < ids.getD j 0 :=
              sorted_getD_lt ids hs (by omega) hj
            rw [hkey] at hlt
            omega
        · have hrec : bin_search_go ids key (fuel + 1) lo hi =
              bin_search_go ids key fuel ((lo + hi) / 2 + 1) hi := by
            simp only [bin_search_go, if_pos hlohi, if_neg heq, if_neg hgt]
          rw [hrec]
          refine ih ((lo + hi) / 2 + 1) hi (by omega) hhi (by omega) ?_
          intro j hj hkey
          have hold := hwin j hj hkey
          rcases lt_trichotomy (j : Int) ((lo + hi) / 2) with h | h | h
          · exfalso
            have hlt2 : ids.getD j 0 < ids.getD ((lo + hi) / 2).toNat 0 :=
              sorted_getD_lt ids hs (by omega) hmidlen
            rw [hkey] at hlt2
            omega
          · exfalso
            have : j = ((lo + hi) / 2).toNat := by omega
            rw [this] at hkey
            exact heq hkey
          · omega
    · left
      constructor
      · simp only [bin_search_go, if_neg hlohi]
      · intro j hj hkey
        have := hwin j hj hkey
        omega

/-- Entry-point correctness of the search, shared by the claims below: on a
strictly ascending array the search returns the unique matching index, and
`-1` exactly when no element matches. -/
theorem bin_search_spec (ids : List Nat) (key : Nat)
    (hs : List.Pairwise (· < ·) ids) :
    ((∃ j : Nat, j < ids.length ∧ ids.getD j 0 = key) →
      ∃ i : Nat, i < ids.length ∧ ids.getD i 0 = key ∧
        ecma_builtin_bin_search_for_magic_string_id_in_array ids key = (i : Int) ∧
        ∀ j : Nat, j < ids.length → ids.getD j 0 = key → j = i) ∧
    (ecma_builtin_bin_search_for_magic_string_id_in_array ids key = -1 ↔
      ¬ ∃ j : Nat, j < ids.length ∧ ids.getD j 0 = key) := by
  have hmain := bin_search_go_spec ids key hs (ids.length + 1) 0 ((ids.length : Int) - 1)
    (by omega) (by omega) (by omega) (by intro j hj _; omega)
  have huniq : ∀ i j : Nat, i < ids.length → j < ids.length →
      ids.getD i 0 = key → ids.getD j 0 = key → j = i := by
    intro i j hi hj hki hkj
    rcases lt_trichotomy i j with h | h | h
    · have := sorted_getD_lt ids hs h hj; omega
    · omega
    · have := sorted_getD_lt ids hs h hi; omega
  rcases hmain with ⟨hm1, hm2⟩ | ⟨i, hi, hki, hval⟩
  · constructor
    · intro ⟨j, hj, hkj⟩
      exact absurd hkj (hm2 j hj)
    · unfold ecma_builtin_bin_search_for_magic_string_id_in_array
      rw [hm1]
      simp only [true_iff]
      intro ⟨j, hj, hkj⟩
      exact hm2 j hj hkj
  · constructor
    · intro _
      exact ⟨i, hi, hki, hval, fun j hj hkj => huniq i j hi hj hki hkj⟩
    · unfold ecma_builtin_bin_search_for_magic_string_id_in_array
      rw [hval]
      constructor
      · intro h; omega
      · intro h
        exact absurd ⟨i, hi, hki⟩ h

/-- C4: for every strictly ascending array of magic-string ids of any length
(including zero) and every key,
`ecma_builtin_bin_search_for_magic_string_id_in_array` returns the unique
index `i` with `ids[i] = key` when such an index exists, and returns `-1` if
and only if no element equals the key. -/
theorem ecma_builtin_bin_search_correct (ids : List Nat) (key : Nat)
    (hs : List.Pairwise (· < ·) ids) :
    ((∃ j : Nat, j < ids.length ∧ ids.getD j 0 = key) →
      ∃ i : Nat, i < ids.length ∧ ids.getD i 0 = key ∧
        ecma_builtin_bin_search_for_magic_string_id_in_array ids key = (i : Int) ∧
        ∀ j : Nat, j < ids.length → ids.getD j 0 = key → j = i) ∧
    (ecma_builtin_bin_search_for_magic_string_id_in_array ids key = -1 ↔
      ¬ ∃ j : Nat, j < ids.length ∧ ids.getD j 0 = key) :=
  bin_search_spec ids key hs

/-- C4 witness: the search evaluated on the concrete sorted array `[2, 5, 9]`
finds `5` at index `1` and reports `4` as absent. -/
theorem ecma_builtin_bin_search_correct_witness :
    ecma_builtin_bin_search_for_magic_string_id_in_array [2, 5, 9] 5 = 1 ∧
    ecma_builtin_bin_search_for_magic_string_id_in_array [2, 5, 9] 4 = -1 := by
  constructor
  · obtain ⟨i, hi, hki, hval, huniq⟩ :=
      (ecma_builtin_bin_search_correct [2, 5, 9] 5 (by decide)).1 ⟨1, by decide, by decide⟩
    have h1 : (1 : Nat) = i := huniq 1 (by decide) (by decide)
    rw [hval, ← h1]
    rfl
  · exact (ecma_builtin_bin_search_correct [2, 5, 9] 4 (by decide)).2.mpr (by decide)

/-- C5: for every `(owner_id, routine_id)` pair with `owner_id` below the
builtin `COUNT` sentinel and `routine_id` a valid magic-string id, packing the
pair as `ecma_builtin_make_function_object_for_routine` does survives the
narrowing to a 32-bit internal-property value, and extracting the two
sub-fields as `ecma_builtin_dispatch_call` does yields exactly
`(owner_id, routine_id)`; the extracted owner field is below `COUNT`. -/
theorem ecma_builtin_routine_id_round_trip :
    ∀ builtin_id : Nat, builtin_id < ECMA_BUILTIN_ID__COUNT →
      ∀ routine_id : Nat, routine_id < ECMA_MAGIC_STRING__COUNT →
        ecma_builtin_routine_pack builtin_id routine_id % 2 ^ 32 =
          ecma_builtin_routine_pack builtin_id routine_id ∧
        ecma_builtin_routine_unpack_object_id
          (ecma_builtin_routine_pack builtin_id routine_id % 2 ^ 32) = builtin_id ∧
        ecma_builtin_routine_unpack_routine_id
          (ecma_builtin_routine_pack builtin_id routine_id % 2 ^ 32) = routine_id ∧
        ecma_builtin_routine_unpack_object_id
          (ecma_builtin_routine_pack builtin_id routine_id % 2 ^ 32) <
            ECMA_BUILTIN_ID__COUNT := by
  decide

/-- C5 witness: the round trip evaluated at the concrete pair
`(ECMA_BUILTIN_ID_GLOBAL, ECMA_MAGIC_STRING_PARSE_INT)`. -/
theorem ecma_builtin_routine_id_round_trip_witness :
    ecma_builtin_routine_pack ECMA_BUILTIN_ID_GLOBAL ECMA_MAGIC_STRING_PARSE_INT % 2 ^ 32 =
      ecma_builtin_routine_pack ECMA_BUILTIN_ID_GLOBAL ECMA_MAGIC_STRING_PARSE_INT ∧
    ecma_builtin_routine_unpack_object_id
      (ecma_builtin_routine_pack ECMA_BUILTIN_ID_GLOBAL ECMA_MAGIC_STRING_PARSE_INT % 2 ^ 32) =
        ECMA_BUILTIN_ID_GLOBAL ∧
    ecma_builtin_routine_unpack_routine_id
      (ecma_builtin_routine_pack ECMA_BUILTIN_ID_GLOBAL ECMA_MAGIC_STRING_PARSE_INT % 2 ^ 32) =
        ECMA_MAGIC_STRING_PARSE_INT ∧
    ecma_builtin_routine_unpack_object_id
      (ecma_builtin_routine_pack ECMA_BUILTIN_ID_GLOBAL ECMA_MAGIC_STRING_PARSE_INT % 2 ^ 32) <
        ECMA_BUILTIN_ID__COUNT :=
  ecma_builtin_routine_id_round_trip ECMA_BUILTIN_ID_GLOBAL (by decide)
    ECMA_MAGIC_STRING_PARSE_INT (by decide)

/-! ## Builtin registry (`ecma-builtins.c`)

The registry `ecma_builtin_objects` is an array of `COUNT` optional object
pointers.  The static per-builtin descriptor table expanded from
`ECMA_BUILTIN_LIST` lives in a header that is not under `src/`; it is modelled
as a `BuiltinTable` carrying each id's declared prototype id (`none` stands
for the `ECMA_BUILTIN_ID__COUNT` sentinel) together with a rank function that
witnesses the spec's invariant that the prototype graph is acyclic. -/

/-- Modelled from the spec: the static builtin descriptor table
(`ECMA_BUILTIN_LIST`, in a header not under `src/`), reduced to the data the
instantiation path reads: the declared prototype builtin id per builtin id
(`none` models the `COUNT` sentinel), plus a rank function whose descent along
prototype edges embodies the spec's acyclicity invariant. -/
structure BuiltinTable where
  count : Nat
  proto : Nat → Option Nat
  rank : Nat → Nat

/-- Check of one row of the static table: a declared prototype id is a valid
id and sits strictly below its dependent in rank. -/
def builtin_proto_ok_at (t : BuiltinTable) (i : Nat) : Bool :=
  match t.proto i with
  | none => true
  | some p => decide (p < t.count) && decide (t.rank p < t.rank i)

/-- The spec's §3 invariant on the static table: the prototype graph is
acyclic (witnessed by rank descent) and every reachable id is below
`COUNT`. -/
def builtin_table_ok (t : BuiltinTable) : Prop :=
  ∀ i, i < t.count → builtin_proto_ok_at t i = true

/-- Engine state touched by the registry: the `ecma_builtin_objects` slot
array, the allocation counter producing fresh object pointers, and the
per-object data the claims observe (prototype pointer, recorded builtin id,
packed routine id and `length` value of routine function objects). -/
structure EcmaState where
  slots : Nat → Option Nat
  nextPtr : Nat
  objProto : Nat → Option (Option Nat)
  objBuiltinId : Nat → Option Nat
  objRoutineId : Nat → Option Nat
  objLen : Nat → Option Nat

/-- `ecma_init_builtins`: every registry slot starts empty (the allocator and
object maps start empty as well). -/
def ecma_init_builtins : EcmaState :=
  { slots := fun _ => none
    nextPtr := 0
    objProto := fun _ => none
    objBuiltinId := fun _ => none
    objRoutineId := fun _ => none
    objLen := fun _ => none }

/-- `ecma_create_object`: allocates a fresh object with the given prototype
pointer (`none` models a NULL prototype). -/
def ecma_create_object (prototype_obj : Option Nat) (st : EcmaState) : Nat × EcmaState :=
  (st.nextPtr,
   { st with
     nextPtr := st.nextPtr + 1
     objProto := fun p => if p = st.nextPtr then some prototype_obj else st.objProto p })

/-- `ecma_builtin_init_object`: creates the object with the requested
prototype and records the builtin id internal property.  The class internal
property and the `[[PrimitiveValue]]` initialisation of the
String/Number/Boolean prototypes mutate data no claim observes and are not
modelled. -/
def ecma_builtin_init_object (obj_builtin_id : Nat) (prototype_obj : Option Nat)
    (st : EcmaState) : Nat × EcmaState :=
  let r := ecma_create_object prototype_obj st
  (r.1,
   { r.2 with
     objBuiltinId := fun p => if p = r.1 then some obj_builtin_id else r.2.objBuiltinId p })

/-- Tail of one `ecma_instantiate_builtin` case: build the object via
`ecma_builtin_init_object` with the resolved prototype pointer and store it
into `ecma_builtin_objects [id]`. -/
def instantiate_finish (id : Nat) (prototype_obj : Option Nat) (st : EcmaState) : EcmaState :=
  let r := ecma_builtin_init_object id prototype_obj st
  { r.2 with slots := fun j => if j = id then some r.1 else r.2.slots j }

/-- Recursion of `ecma_instantiate_builtin`, with explicit fuel: if the
declared prototype id is the `COUNT` sentinel the object gets a NULL
prototype, otherwise the prototype's slot is instantiated first (when still
empty) and the new object points at the registry's object for it; finally the
id's own slot receives the new object.  The entry point hands the recursion
`rank id + 1` units of fuel, which rank descent shows is never exhausted. -/
def ecma_instantiate_builtin_go (t : BuiltinTable) : Nat → Nat → EcmaState → EcmaState
  | 0, _, st => st
  | fuel + 1, id, st =>
    match t.proto id with
    | none => instantiate_finish id none st
    | some p =>
      instantiate_finish id
        ((if st.slots p = none then ecma_instantiate_builtin_go t fuel p st else st).slots p)
        (if st.slots p = none then ecma_instantiate_builtin_go t fuel p st else st)

/-- `ecma_instantiate_builtin` for the table `t`. -/
def ecma_instantiate_builtin (t : BuiltinTable) (id : Nat) (st : EcmaState) : EcmaState :=
  ecma_instantiate_builtin_go t (t.rank id + 1) id st

/-- `ecma_builtin_get`: instantiates the slot when empty and returns the
singleton's pointer (the reference-count increment `ecma_ref_object` performs
is not modelled). -/
def ecma_builtin_get (t : BuiltinTable) (builtin_id : Nat) (st : EcmaState) :
    Option Nat × EcmaState :=
  let st1 := if st.slots builtin_id = none then ecma_instantiate_builtin t builtin_id st else st
  (st1.slots builtin_id, st1)

/-- `ecma_builtin_is`: instantiates the slot when empty and compares the
passed object pointer with the singleton's pointer. -/
def ecma_builtin_is (t : BuiltinTable) (obj : Nat) (builtin_id : Nat) (st : EcmaState) :
    Bool × EcmaState :=
  let st1 := if st.slots builtin_id = none then ecma_instantiate_builtin t builtin_id st else st
  (decide (some obj = st1.slots builtin_id), st1)

/-- The finishing store fills the requested slot with the freshly allocated
object. -/
theorem instantiate_finish_slots_self (id : Nat) (prototype_obj : Option Nat) (st : EcmaState) :
    (instantiate_finish id prototype_obj st).slots id = some st.nextPtr := by
  simp [instantiate_finish, ecma_builtin_init_object, ecma_create_object]

/-- The finishing store leaves every other registry slot unchanged. -/
theorem instantiate_finish_slots_other (id : Nat) (prototype_obj : Option Nat) (st : EcmaState)
    (j : Nat) (h : j ≠ id) :
    (instantiate_finish id prototype_obj st).slots j = st.slots j := by
  simp [instantiate_finish, ecma_builtin_init_object, ecma_create_object, h]

/-- The finishing store records the resolved prototype pointer on the freshly
allocated object. -/
theorem instantiate_finish_objProto (id : Nat) (prototype_obj : Option Nat) (st : EcmaState) :
    (instantiate_finish id prototype_obj st).objProto st.nextPtr = some prototype_obj := by
  simp [instantiate_finish, ecma_builtin_init_object, ecma_create_object]

/-- Unfolding of the instantiation step when the declared prototype id is the
`COUNT` sentinel. -/
theorem ecma_instantiate_builtin_go_succ_none (t : BuiltinTable) (fuel id : Nat)
    (st : EcmaState) (hp : t.proto id = none) :
    ecma_instantiate_builtin_go t (fuel + 1) id st = instantiate_finish id none st := by
  simp only [ecma_instantiate_builtin_go, hp]

/-- Unfolding of the instantiation step when a prototype id is declared. -/
theorem ecma_instantiate_builtin_go_succ_some (t : BuiltinTable) (fuel id p : Nat)
    (st : EcmaState) (hp : t.proto id = some p) :
    ecma_instantiate_builtin_go t (fuel + 1) id st =
      instantiate_finish id
        ((if st.slots p = none then ecma_instantiate_builtin_go t fuel p st else st).slots p)
        (if st.slots p = none then ecma_instantiate_builtin_go t fuel p st else st) := by
  simp only [ecma_instantiate_builtin_go, hp]

/-- One step of instantiation always fills the requested slot (the final store
into `ecma_builtin_objects [id]` is unconditional). -/
theorem ecma_instantiate_builtin_go_sets_slot (t : BuiltinTable) (fuel id : Nat)
    (st : EcmaState) (hf : 1 ≤ fuel) :
    ∃ obj, (ecma_instantiate_builtin_go t fuel id st).slots id = some obj := by
  cases fuel with
  | zero => omega
  | succ fuel =>
    cases hp : t.proto id with
    | none =>
      rw [ecma_instantiate_builtin_go_succ_none t fuel id st hp]
      exact ⟨_, instantiate_finish_slots_self id none st⟩
    | some p =>
      rw [ecma_instantiate_builtin_go_succ_some t fuel id p st hp]
      exact ⟨_, instantiate_finish_slots_self id _ _⟩

/-- `ecma_instantiate_builtin` always fills the requested slot. -/
theorem ecma_instantiate_builtin_sets_slot (t : BuiltinTable) (id : Nat) (st : EcmaState) :
    ∃ obj, (ecma_instantiate_builtin t id st).slots id = some obj :=
  ecma_instantiate_builtin_go_sets_slot t (t.rank id + 1) id st (by omega)

/-- After any `ecma_builtin_get` the requested slot is filled and the returned
pointer is exactly the slot's content. -/
theorem ecma_builtin_get_slot (t : BuiltinTable) (builtin_id : Nat) (st : EcmaState) :
    (∃ obj, (ecma_builtin_get t builtin_id st).1 = some obj) ∧
    (ecma_builtin_get t builtin_id st).2.slots builtin_id =
      (ecma_builtin_get t builtin_id st).1 := by
  constructor
  · simp only [ecma_builtin_get]
    by_cases h : st.slots builtin_id = none
    · rw [if_pos h]
      exact ecma_instantiate_builtin_sets_slot t builtin_id st
    · rw [if_neg h]
      cases hh : st.slots builtin_id with
      | none => exact absurd hh h
      | some o => exact ⟨o, rfl⟩
  · rfl

/-- `ecma_builtin_get` on an already-filled slot returns the stored pointer
and performs no state change. -/
theorem ecma_builtin_get_filled (t : BuiltinTable) (builtin_id : Nat) (st : EcmaState)
    (o : Nat) (h : st.slots builtin_id = some o) :
    ecma_builtin_get t builtin_id st = (some o, st) := by
  simp [ecma_builtin_get, h]

/-- C1: for a builtin id below `COUNT`, `ecma_builtin_get` returns the
registry singleton's pointer (never NULL), a repeated `ecma_builtin_get`
returns the identical pointer without instantiating again (the state is
unchanged), and `ecma_builtin_is` runs the same instantiate-if-empty side
effect and answers `true` exactly when the passed pointer is identical to the
singleton returned by `ecma_builtin_get`. -/
theorem ecma_builtin_get_is_singleton (t : BuiltinTable) (builtin_id : Nat)
    (_hid : builtin_id < t.count) (st : EcmaState) (obj : Nat) :
    (ecma_builtin_get t builtin_id st).1 ≠ none ∧
    (ecma_builtin_get t builtin_id st).2.slots builtin_id =
      (ecma_builtin_get t builtin_id st).1 ∧
    ecma_builtin_get t builtin_id ((ecma_builtin_get t builtin_id st).2) =
      ((ecma_builtin_get t builtin_id st).1, (ecma_builtin_get t builtin_id st).2) ∧
    (ecma_builtin_is t obj builtin_id st).2 = (ecma_builtin_get t builtin_id st).2 ∧
    ((ecma_builtin_is t obj builtin_id st).1 = true ↔
      some obj = (ecma_builtin_get t builtin_id st).1) := by
  obtain ⟨⟨o, ho⟩, hslot⟩ := ecma_builtin_get_slot t builtin_id st
  refine ⟨?_, hslot, ?_, rfl, ?_⟩
  · rw [ho]
    exact fun h => Option.noConfusion h
  · have h2 : (ecma_builtin_get t builtin_id st).2.slots builtin_id = some o := by
      rw [hslot, ho]
    rw [ecma_builtin_get_filled t builtin_id _ o h2, ho]
  · simp only [ecma_builtin_is, ecma_builtin_get]
    exact decide_eq_true_iff

/-- C2: instantiating a builtin id whose descriptor declares a prototype id
leaves that prototype id instantiated as well, and the created object's
prototype pointer is exactly the registry's object for the prototype id; an
id whose declared prototype is the `COUNT` sentinel gets a NULL prototype. -/
theorem ecma_instantiate_builtin_prototype (t : BuiltinTable) (hok : builtin_table_ok t)
    (id : Nat) (hid : id < t.count) (st : EcmaState) (_h0 : st.slots id = none) :
    (∀ p, t.proto id = some p →
      ∃ obj q, (ecma_instantiate_builtin t id st).slots id = some obj ∧
        (ecma_instantiate_builtin t id st).slots p = some q ∧
        (ecma_instantiate_builtin t id st).objProto obj = some (some q)) ∧
    (t.proto id = none →
      ∃ obj, (ecma_instantiate_builtin t id st).slots id = some obj ∧
        (ecma_instantiate_builtin t id st).objProto obj = some none) := by
  constructor
  · intro p hp
    have hok' := hok id hid
    unfold builtin_proto_ok_at at hok'
    rw [hp] at hok'
    simp only [Bool.and_eq_true, decide_eq_true_eq] at hok'
    obtain ⟨hpc, hpr⟩ := hok'
    have hpid : p ≠ id := by
      intro h
      rw [h] at hpr
      omega
    have hstep := ecma_instantiate_builtin_go_succ_some t (t.rank id) id p st hp
    have hq : ∃ q,
        (if st.slots p = none then ecma_instantiate_builtin_go t (t.rank id) p st else st).slots p
          = some q := by
      by_cases hsp : st.slots p = none
      · rw [if_pos hsp]
        exact ecma_instantiate_builtin_go_sets_slot t (t.rank id) p st (by omega)
      · rw [if_neg hsp]
        cases hh : st.slots p with
        | none => exact absurd hh hsp
        | some q => exact ⟨q, rfl⟩
    obtain ⟨q, hq⟩ := hq
    refine ⟨(if st.slots p = none then ecma_instantiate_builtin_go t (t.rank id) p st
        else st).nextPtr, q, ?_, ?_, ?_⟩
    · rw [ecma_instantiate_builtin, hstep]
      exact instantiate_finish_slots_self id _ _
    · rw [ecma_instantiate_builtin, hstep, instantiate_finish_slots_other _ _ _ p hpid]
      exact hq
    · rw [ecma_instantiate_builtin, hstep, instantiate_finish_objProto, hq]
  · intro hp
    have hstep := ecma_instantiate_builtin_go_succ_none t (t.rank id) id st hp
    refine ⟨st.nextPtr, ?_, ?_⟩
    · rw [ecma_instantiate_builtin, hstep]
      exact instantiate_finish_slots_self id none st
    · rw [ecma_instantiate_builtin, hstep]
      exact instantiate_finish_objProto id none st

/-! ## Concrete instance of the static builtin table

Used to evaluate the registry theorems on concrete inputs and by the Global
object model below. -/

/-- Modelled from the spec: declared prototype ids of the concrete builtin
variants (`ECMA_BUILTIN_LIST` rows, in a header not under `src/`): prototype
objects chain to `Object.prototype` (which itself has the `COUNT` sentinel,
i.e. a NULL prototype), constructors chain to `Function.prototype`. -/
def jerry_builtin_proto : Nat → Option Nat := fun i =>
  if i = ECMA_BUILTIN_ID_GLOBAL then some ECMA_BUILTIN_ID_OBJECT_PROTOTYPE
  else if i = ECMA_BUILTIN_ID_OBJECT then some ECMA_BUILTIN_ID_FUNCTION_PROTOTYPE
  else if i = ECMA_BUILTIN_ID_OBJECT_PROTOTYPE then none
  else if i = ECMA_BUILTIN_ID_FUNCTION then some ECMA_BUILTIN_ID_FUNCTION_PROTOTYPE
  else if i = ECMA_BUILTIN_ID_FUNCTION_PROTOTYPE then some ECMA_BUILTIN_ID_OBJECT_PROTOTYPE
  else if i = ECMA_BUILTIN_ID_ARRAY then some ECMA_BUILTIN_ID_FUNCTION_PROTOTYPE
  else if i = ECMA_BUILTIN_ID_ARRAY_PROTOTYPE then some ECMA_BUILTIN_ID_OBJECT_PROTOTYPE
  else if i = ECMA_BUILTIN_ID_STRING then some ECMA_BUILTIN_ID_FUNCTION_PROTOTYPE
  else if i = ECMA_BUILTIN_ID_STRING_PROTOTYPE then some ECMA_BUILTIN_ID_OBJECT_PROTOTYPE
  else if i = ECMA_BUILTIN_ID_BOOLEAN then some ECMA_BUILTIN_ID_FUNCTION_PROTOTYPE
  else if i = ECMA_BUILTIN_ID_BOOLEAN_PROTOTYPE then some ECMA_BUILTIN_ID_OBJECT_PROTOTYPE
  else if i = ECMA_BUILTIN_ID_NUMBER then some ECMA_BUILTIN_ID_FUNCTION_PROTOTYPE
  else if i = ECMA_BUILTIN_ID_NUMBER_PROTOTYPE then some ECMA_BUILTIN_ID_OBJECT_PROTOTYPE
  else if i = ECMA_BUILTIN_ID_MATH then some ECMA_BUILTIN_ID_OBJECT_PROTOTYPE
  else if i = ECMA_BUILTIN_ID_COMPACT_PROFILE_ERROR then some ECMA_BUILTIN_ID_FUNCTION_PROTOTYPE
  else none

/-- Rank function witnessing the acyclicity of `jerry_builtin_proto`:
`Object.prototype` at rank 0, `Function.prototype` at rank 1, everything else
at rank 2. -/
def jerry_builtin_rank : Nat → Nat := fun i =>
  if i = ECMA_BUILTIN_ID_OBJECT_PROTOTYPE then 0
  else if i = ECMA_BUILTIN_ID_FUNCTION_PROTOTYPE then 1
  else 2

/-- The concrete modelled builtin descriptor table. -/
def jerryBuiltinTable : BuiltinTable :=
  { count := ECMA_BUILTIN_ID__COUNT
    proto := jerry_builtin_proto
    rank := jerry_builtin_rank }

/-- The concrete table satisfies the spec's acyclicity/range invariant. -/
theorem jerryBuiltinTable_ok : builtin_table_ok jerryBuiltinTable := by
  unfold builtin_table_ok
  decide

/-- C1 witness: the registry theorem evaluated at the concrete table, the
Global builtin id, the freshly initialized registry and the candidate object
pointer `0`. -/
theorem ecma_builtin_get_is_singleton_witness :
    (ecma_builtin_get jerryBuiltinTable ECMA_BUILTIN_ID_GLOBAL ecma_init_builtins).1 ≠ none ∧
    (ecma_builtin_get jerryBuiltinTable ECMA_BUILTIN_ID_GLOBAL
        ecma_init_builtins).2.slots ECMA_BUILTIN_ID_GLOBAL =
      (ecma_builtin_get jerryBuiltinTable ECMA_BUILTIN_ID_GLOBAL ecma_init_builtins).1 ∧
    ecma_builtin_get jerryBuiltinTable ECMA_BUILTIN_ID_GLOBAL
        ((ecma_builtin_get jerryBuiltinTable ECMA_BUILTIN_ID_GLOBAL ecma_init_builtins).2) =
      ((ecma_builtin_get jerryBuiltinTable ECMA_BUILTIN_ID_GLOBAL ecma_init_builtins).1,
        (ecma_builtin_get jerryBuiltinTable ECMA_BUILTIN_ID_GLOBAL ecma_init_builtins).2) ∧
    (ecma_builtin_is jerryBuiltinTable 0 ECMA_BUILTIN_ID_GLOBAL ecma_init_builtins).2 =
      (ecma_builtin_get jerryBuiltinTable ECMA_BUILTIN_ID_GLOBAL ecma_init_builtins).2 ∧
    ((ecma_builtin_is jerryBuiltinTable 0 ECMA_BUILTIN_ID_GLOBAL ecma_init_builtins).1 = true ↔
      some 0 = (ecma_builtin_get jerryBuiltinTable ECMA_BUILTIN_ID_GLOBAL ecma_init_builtins).1) :=
  ecma_builtin_get_is_singleton jerryBuiltinTable ECMA_BUILTIN_ID_GLOBAL (by decide)
    ecma_init_builtins 0

/-- C2 witness: instantiating the Global builtin in the freshly initialized
registry instantiates its declared prototype (`Object.prototype`) as well and
links the created object to it. -/
theorem ecma_instantiate_builtin_prototype_witness :
    (∀ p, jerryBuiltinTable.proto ECMA_BUILTIN_ID_GLOBAL = some p →
      ∃ obj q,
        (ecma_instantiate_builtin jerryBuiltinTable ECMA_BUILTIN_ID_GLOBAL
            ecma_init_builtins).slots ECMA_BUILTIN_ID_GLOBAL = some obj ∧
        (ecma_instantiate_builtin jerryBuiltinTable ECMA_BUILTIN_ID_GLOBAL
            ecma_init_builtins).slots p = some q ∧
        (ecma_instantiate_builtin jerryBuiltinTable ECMA_BUILTIN_ID_GLOBAL
            ecma_init_builtins).objProto obj = some (some q)) ∧
    (jerryBuiltinTable.proto ECMA_BUILTIN_ID_GLOBAL = none →
      ∃ obj,
        (ecma_instantiate_builtin jerryBuiltinTable ECMA_BUILTIN_ID_GLOBAL
            ecma_init_builtins).slots ECMA_BUILTIN_ID_GLOBAL = some obj ∧
        (ecma_instantiate_builtin jerryBuiltinTable ECMA_BUILTIN_ID_GLOBAL
            ecma_init_builtins).objProto obj = some none) :=
  ecma_instantiate_builtin_prototype jerryBuiltinTable jerryBuiltinTable_ok
    ECMA_BUILTIN_ID_GLOBAL (by decide) ecma_init_builtins rfl

/-! ## The Global object built-in (`ecma-builtin-global-object.c`)

The compact-profile conditional compilation (`CONFIG_ECMA_COMPACT_PROFILE`)
is modelled as an explicit `compact : Bool` parameter threaded to every
definition whose source text depends on the `#ifdef`. -/

/-- Modelled from the spec: simple value code (`ecma-globals.h`, not under
`src/`). -/
def ECMA_SIMPLE_VALUE_EMPTY : Nat := 0

/-- Modelled from the spec: simple value code. -/
def ECMA_SIMPLE_VALUE_UNDEFINED : Nat := 1

/-- Modelled from the spec: simple value code. -/
def ECMA_SIMPLE_VALUE_FALSE : Nat := 2

/-- Modelled from the spec: simple value code. -/
def ECMA_SIMPLE_VALUE_TRUE : Nat := 3

/-- An `ecma_value_t` as the Global object code produces them: a simple
value, an allocated number cell holding NaN (`ecma_number_make_nan`) or
positive infinity (`ecma_number_make_infinity (false)`), or an object
pointer. -/
inductive EV where
  | simple (v : Nat)
  | numberNaN
  | numberInfinity
  | object (p : Nat)

/-- A property name handed to the lazy-instantiation path: either an interned
magic string (with its id) or any other string (`ecma_is_string_magic` fails
on it). -/
inductive PropName where
  | magic (id : Nat)
  | other (s : Nat)

/-- `ecma_is_string_magic`: resolve a property name to its magic-string id if
it has one. -/
def ecma_is_string_magic : PropName → Option Nat
  | PropName.magic id => some id
  | PropName.other _ => none

/-- A named property installed on the Global object: a named data property
with its value and attribute triple, or a named accessor property with its
getter and setter object pointers and attribute pair, exactly the two shapes
`ecma_create_named_data_property` / `ecma_create_named_accessor_property`
produce. -/
inductive GProp where
  | namedData (value : EV) (writable enumerable configurable : Bool)
  | namedAccessor (get_obj set_obj : Nat) (enumerable configurable : Bool)

/-- State of the engine as seen by the Global object's lazy-instantiation
path: the registry/heap, the Global object's 32-bit lazy-instantiation
bitmask internal property (`none` when the internal property does not exist
yet), and the named properties installed on the Global object (newest
first). -/
structure GObjState where
  reg : EcmaState
  maskProp : Option Nat
  props : List (PropName × GProp)

/-- Fresh Global object: no bitmask internal property, no named properties,
freshly initialized registry. -/
def global_init : GObjState :=
  { reg := ecma_init_builtins, maskProp := none, props := [] }

/-- Outcome of an operation that can hit `JERRY_UNREACHABLE` or
`JERRY_UNIMPLEMENTED`: a normal result, or a fatal programming-error abort
(never surfaced to script). -/
inductive Outcome (α : Type) where
  | normal (a : α)
  | fatal

/-- Pointer extraction from an `ecma_builtin_get` result: the C code uses the
returned pointer directly, which `ecma_builtin_get_slot` shows is never NULL;
the default `0` is never reached. -/
def ptrOf (o : Option Nat) : Nat := o.getD 0

/-- `ecma_builtin_make_function_object_for_routine`: allocates the
function-shaped object with prototype `Function.prototype` (obtained through
the registry), stores the packed `(builtin_id, routine_id)` value narrowed to
32 bits as its routine-id internal property, and records the frozen `length`
property value. -/
def ecma_builtin_make_function_object_for_routine (builtin_id routine_id len : Nat)
    (st : EcmaState) : Nat × EcmaState :=
  let g := ecma_builtin_get jerryBuiltinTable ECMA_BUILTIN_ID_FUNCTION_PROTOTYPE st
  let r := ecma_create_object (some (ptrOf g.1)) g.2
  (r.1,
   { r.2 with
     objRoutineId := fun p =>
       if p = r.1 then some (ecma_builtin_routine_pack builtin_id routine_id % 2 ^ 32)
       else r.2.objRoutineId p
     objLen := fun p => if p = r.1 then some len else r.2.objLen p })

/-- The static array `ecma_builtin_global_property_names`; the final
`ECMA_MAGIC_STRING_COMPACT_PROFILE_ERROR_UL` entry is present exactly under
`CONFIG_ECMA_COMPACT_PROFILE`. -/
def ecma_builtin_global_property_names (compact : Bool) : List Nat :=
  [ECMA_MAGIC_STRING_EVAL,
   ECMA_MAGIC_STRING_UNDEFINED,
   ECMA_MAGIC_STRING_NAN,
   ECMA_MAGIC_STRING_INFINITY_UL,
   ECMA_MAGIC_STRING_OBJECT_UL,
   ECMA_MAGIC_STRING_FUNCTION_UL,
   ECMA_MAGIC_STRING_ARRAY_UL,
   ECMA_MAGIC_STRING_STRING_UL,
   ECMA_MAGIC_STRING_BOOLEAN_UL,
   ECMA_MAGIC_STRING_NUMBER_UL,
   ECMA_MAGIC_STRING_DATE_UL,
   ECMA_MAGIC_STRING_REG_EXP_UL,
   ECMA_MAGIC_STRING_ERROR_UL,
   ECMA_MAGIC_STRING_EVAL_ERROR_UL,
   ECMA_MAGIC_STRING_RANGE_ERROR_UL,
   ECMA_MAGIC_STRING_REFERENCE_ERROR_UL,
   ECMA_MAGIC_STRING_SYNTAX_ERROR_UL,
   ECMA_MAGIC_STRING_TYPE_ERROR_UL,
   ECMA_MAGIC_STRING_URI_ERROR_UL,
   ECMA_MAGIC_STRING_MATH_UL,
   ECMA_MAGIC_STRING_JSON_U,
   ECMA_MAGIC_STRING_PARSE_INT,
   ECMA_MAGIC_STRING_PARSE_FLOAT,
   ECMA_MAGIC_STRING_IS_NAN,
   ECMA_MAGIC_STRING_IS_FINITE,
   ECMA_MAGIC_STRING_DECODE_URI,
   ECMA_MAGIC_STRING_DECODE_URI_COMPONENT,
   ECMA_MAGIC_STRING_ENCODE_URI,
   ECMA_MAGIC_STRING_ENCODE_URI_COMPONENT] ++
  (if compact then [ECMA_MAGIC_STRING_COMPACT_PROFILE_ERROR_UL] else [])

/-- `ecma_builtin_global_property_number`. -/
def ecma_builtin_global_property_number (compact : Bool) : Nat :=
  (ecma_builtin_global_property_names compact).length

/-- The `ECMA_BUILTIN_GLOBAL_OBJECT_ROUTINES_PROPERTY_LIST` macro rows:
`(magic-string id, argument count of the C handler, value of the 'length'
property)`. -/
def ECMA_BUILTIN_GLOBAL_OBJECT_ROUTINES_PROPERTY_LIST : List (Nat × Nat × Nat) :=
  [(ECMA_MAGIC_STRING_EVAL, 1, 1),
   (ECMA_MAGIC_STRING_PARSE_FLOAT, 1, 1),
   (ECMA_MAGIC_STRING_IS_NAN, 1, 1),
   (ECMA_MAGIC_STRING_IS_FINITE, 1, 1),
   (ECMA_MAGIC_STRING_DECODE_URI, 1, 1),
   (ECMA_MAGIC_STRING_DECODE_URI_COMPONENT, 1, 1),
   (ECMA_MAGIC_STRING_ENCODE_URI, 1, 1),
   (ECMA_MAGIC_STRING_ENCODE_URI_COMPONENT, 1, 1),
   (ECMA_MAGIC_STRING_PARSE_INT, 2, 2)]

/-- The Date/RegExp/Error-family/JSON group of `case` labels in
`ecma_builtin_global_try_to_instantiate_property`: unimplemented members that
become throwing accessors under the compact profile and a fatal
`JERRY_UNIMPLEMENTED` otherwise. -/
def global_unimplemented_members : List Nat :=
  [ECMA_MAGIC_STRING_DATE_UL,
   ECMA_MAGIC_STRING_REG_EXP_UL,
   ECMA_MAGIC_STRING_ERROR_UL,
   ECMA_MAGIC_STRING_EVAL_ERROR_UL,
   ECMA_MAGIC_STRING_RANGE_ERROR_UL,
   ECMA_MAGIC_STRING_REFERENCE_ERROR_UL,
   ECMA_MAGIC_STRING_SYNTAX_ERROR_UL,
   ECMA_MAGIC_STRING_TYPE_ERROR_UL,
   ECMA_MAGIC_STRING_URI_ERROR_UL,
   ECMA_MAGIC_STRING_JSON_U]

/-- Result of the `switch (id)` body of
`ecma_builtin_global_try_to_instantiate_property`: a value plus attribute
triple to be installed as a named data property, an early return installing a
named accessor (compact profile), or a fatal condition. -/
inductive SwitchResult where
  | dataVal (value : EV) (writable enumerable configurable : Bool) (reg : EcmaState)
  | accessor (get_set : Nat) (reg : EcmaState)
  | fatalErr

/-- The `case` bodies that fetch a registry singleton (`Object`, `Math`, ...)
and install it with the default attributes (writable, not enumerable,
configurable). -/
def global_builtin_object_value (bid : Nat) (reg : EcmaState) : SwitchResult :=
  SwitchResult.dataVal
    (EV.object (ptrOf (ecma_builtin_get jerryBuiltinTable bid reg).1))
    true false true
    (ecma_builtin_get jerryBuiltinTable bid reg).2

/-- The `switch (id)` body of
`ecma_builtin_global_try_to_instantiate_property`, with the same case order
as the source: the routine cases expanded from
`ECMA_BUILTIN_GLOBAL_OBJECT_ROUTINES_PROPERTY_LIST`, the constants
`undefined`/`NaN`/`Infinity` (non-writable, non-enumerable,
non-configurable), the nested namespace objects, the compact-profile error
constructor (compact profile only), the unimplemented-member group, and the
unreachable default. -/
def global_switch (compact : Bool) (id : Nat) (reg : EcmaState) : SwitchResult :=
  match ECMA_BUILTIN_GLOBAL_OBJECT_ROUTINES_PROPERTY_LIST.find? (fun e => e.1 == id) with
  | some info =>
    SwitchResult.dataVal
      (EV.object
        (ecma_builtin_make_function_object_for_routine ECMA_BUILTIN_ID_GLOBAL id
          info.2.2 reg).1)
      true false true
      (ecma_builtin_make_function_object_for_routine ECMA_BUILTIN_ID_GLOBAL id
        info.2.2 reg).2
  | none =>
    if id = ECMA_MAGIC_STRING_UNDEFINED then
      SwitchResult.dataVal (EV.simple ECMA_SIMPLE_VALUE_UNDEFINED) false false false reg
    else if id = ECMA_MAGIC_STRING_NAN then
      SwitchResult.dataVal EV.numberNaN false false false reg
    else if id = ECMA_MAGIC_STRING_INFINITY_UL then
      SwitchResult.dataVal EV.numberInfinity false false false reg
    else if id = ECMA_MAGIC_STRING_OBJECT_UL then
      global_builtin_object_value ECMA_BUILTIN_ID_OBJECT reg
    else if id = ECMA_MAGIC_STRING_MATH_UL then
      global_builtin_object_value ECMA_BUILTIN_ID_MATH reg
    else if id = ECMA_MAGIC_STRING_STRING_UL then
      global_builtin_object_value ECMA_BUILTIN_ID_STRING reg
    else if id = ECMA_MAGIC_STRING_BOOLEAN_UL then
      global_builtin_object_value ECMA_BUILTIN_ID_BOOLEAN reg
    else if id = ECMA_MAGIC_STRING_NUMBER_UL then
      global_builtin_object_value ECMA_BUILTIN_ID_NUMBER reg
    else if id = ECMA_MAGIC_STRING_ARRAY_UL then
      global_builtin_object_value ECMA_BUILTIN_ID_ARRAY reg
    else if id = ECMA_MAGIC_STRING_FUNCTION_UL then
      global_builtin_object_value ECMA_BUILTIN_ID_FUNCTION reg
    else if compact = true ∧ id = ECMA_MAGIC_STRING_COMPACT_PROFILE_ERROR_UL then
      global_builtin_object_value ECMA_BUILTIN_ID_COMPACT_PROFILE_ERROR reg
    else if id ∈ global_unimplemented_members then
      if compact then
        SwitchResult.accessor
          (ptrOf (ecma_builtin_get jerryBuiltinTable ECMA_BUILTIN_ID_COMPACT_PROFILE_ERROR
            reg).1)
          (ecma_builtin_get jerryBuiltinTable ECMA_BUILTIN_ID_COMPACT_PROFILE_ERROR reg).2
      else SwitchResult.fatalErr
    else SwitchResult.fatalErr

/-- The bitmask read of `ecma_builtin_global_try_to_instantiate_property`:
find the bitmask internal property, creating it zero-initialized when
absent. -/
def global_read_or_create_mask (st : GObjState) : Nat × GObjState :=
  match st.maskProp with
  | none => (0, { st with maskProp := some 0 })
  | some m => (m, st)

/-- `ecma_builtin_global_try_to_instantiate_property`: resolve the name to a
magic-string id (non-magic names return NULL untouched), binary-search the
sorted property-name table (`-1` returns NULL untouched), read or create the
bitmask and return NULL when the index's bit is already set, otherwise set
the bit, run the `switch (id)` body, and install the resulting property
(named accessor for the compact-profile throwing members, named data property
for everything else). -/
def ecma_builtin_global_try_to_instantiate_property (compact : Bool) (st : GObjState)
    (prop_name : PropName) : Outcome (Option GProp × GObjState) :=
  match ecma_is_string_magic prop_name with
  | none => Outcome.normal (none, st)
  | some id =>
    if ecma_builtin_bin_search_for_magic_string_id_in_array
        (ecma_builtin_global_property_names compact) id = -1 then
      Outcome.normal (none, st)
    else
      let idx := (ecma_builtin_bin_search_for_magic_string_id_in_array
        (ecma_builtin_global_property_names compact) id).toNat
      let bit : Nat := 2 ^ idx
      let m := global_read_or_create_mask st
      if m.1 &&& bit ≠ 0 then Outcome.normal (none, m.2)
      else
        let stB := { m.2 with maskProp := some (m.1 ||| bit) }
        match global_switch compact id stB.reg with
        | SwitchResult.fatalErr => Outcome.fatal
        | SwitchResult.accessor gs reg1 =>
          Outcome.normal (some (GProp.namedAccessor gs gs true false),
            { stB with
              reg := reg1
              props := (prop_name, GProp.namedAccessor gs gs true false) :: stB.props })
        | SwitchResult.dataVal v w e c reg1 =>
          Outcome.normal (some (GProp.namedData v w e c),
            { stB with
              reg := reg1
              props := (prop_name, GProp.namedData v w e c) :: stB.props })

/-- C6: the static array `ecma_builtin_global_property_names` is strictly
ascending in magic-string id order (in both build profiles), satisfying the
sortedness precondition of the binary search that every Global property
lookup performs. -/
theorem ecma_builtin_global_property_names_sorted :
    List.Pairwise (· < ·) (ecma_builtin_global_property_names false) ∧
    List.Pairwise (· < ·) (ecma_builtin_global_property_names true) := by
  decide

/-- Index of a Global property name in the sorted table, as the bitmask code
computes it (`toNat` of the binary search result). -/
def global_prop_index (compact : Bool) (id : Nat) : Nat :=
  (ecma_builtin_bin_search_for_magic_string_id_in_array
    (ecma_builtin_global_property_names compact) id).toNat

/-- Sortedness of the Global property-name table, for internal use. -/
theorem global_names_sorted (compact : Bool) :
    List.Pairwise (· < ·) (ecma_builtin_global_property_names compact) := by
  cases compact <;> decide

/-- A `getD` read within bounds produces a list member. -/
theorem list_getD_mem (l : List Nat) (n : Nat) (h : n < l.length) : l.getD n 0 ∈ l := by
  rw [List.getD_eq_getElem l 0 h]
  exact List.getElem_mem h

/-- On a member of the Global property-name table the binary search returns
its (unique) index. -/
theorem global_search_mem (compact : Bool) (id : Nat)
    (hmem : id ∈ ecma_builtin_global_property_names compact) :
    ∃ i : Nat, i < (ecma_builtin_global_property_names compact).length ∧
      (ecma_builtin_global_property_names compact).getD i 0 = id ∧
      ecma_builtin_bin_search_for_magic_string_id_in_array
        (ecma_builtin_global_property_names compact) id = (i : Int) := by
  obtain ⟨j, hj, hjv⟩ := List.mem_iff_getElem.mp hmem
  have hjd : (ecma_builtin_global_property_names compact).getD j 0 = id := by
    rw [List.getD_eq_getElem _ 0 hj]
    exact hjv
  obtain ⟨i, hi, hki, hval, -⟩ :=
    (bin_search_spec (ecma_builtin_global_property_names compact) id
      (global_names_sorted compact)).1 ⟨j, hj, hjd⟩
  exact ⟨i, hi, hki, hval⟩

/-- Setting a bit makes the masked test of that bit non-zero. -/
theorem or_and_pow_ne_zero (m i : Nat) : (m ||| 2 ^ i) &&& 2 ^ i ≠ 0 := by
  intro h0
  have h : ((m ||| 2 ^ i) &&& 2 ^ i).testBit i = true := by
    simp [Nat.testBit_and, Nat.testBit_or, Nat.testBit_two_pow_self]
  rw [h0] at h
  simp at h

/-- Second-visit behavior of the lazy-instantiation path: when the bitmask
internal property exists and the bit of the looked-up table index is already
set, the call returns NULL and leaves the state untouched. -/
theorem global_try_mask_hit (compact : Bool) (st : GObjState) (id : Nat)
    (hmem : id ∈ ecma_builtin_global_property_names compact) (m : Nat)
    (hm : st.maskProp = some m)
    (hbit : m &&& 2 ^ global_prop_index compact id ≠ 0) :
    ecma_builtin_global_try_to_instantiate_property compact st (PropName.magic id) =
      Outcome.normal (none, st) := by
  obtain ⟨i, hi, hki, hval⟩ := global_search_mem compact id hmem
  unfold global_prop_index at hbit
  rw [hval] at hbit
  unfold ecma_builtin_global_try_to_instantiate_property
  simp only [ecma_is_string_magic]
  rw [hval]
  rw [if_neg (by omega : ¬ ((i : Nat) : Int) = -1)]
  have hread : global_read_or_create_mask st = (m, st) := by
    simp [global_read_or_create_mask, hm]
  rw [hread]
  simp only []
  rw [if_pos hbit]

/-- First-visit result assembly: the state after the bit is set together with
the property the `switch (id)` outcome installs. -/
def global_install (compact : Bool) (st : GObjState) (id : Nat) :
    Outcome (Option GProp × GObjState) :=
  match global_switch compact id st.reg with
  | SwitchResult.fatalErr => Outcome.fatal
  | SwitchResult.accessor gs reg1 =>
    Outcome.normal (some (GProp.namedAccessor gs gs true false),
      { reg := reg1
        maskProp := some (st.maskProp.getD 0 ||| 2 ^ global_prop_index compact id)
        props := (PropName.magic id, GProp.namedAccessor gs gs true false) :: st.props })
  | SwitchResult.dataVal v w e c reg1 =>
    Outcome.normal (some (GProp.namedData v w e c),
      { reg := reg1
        maskProp := some (st.maskProp.getD 0 ||| 2 ^ global_prop_index compact id)
        props := (PropName.magic id, GProp.namedData v w e c) :: st.props })

/-- First-visit behavior of the lazy-instantiation path: on a table member
whose bit is not yet set (or whose bitmask property does not exist yet), the
call reduces to setting the bit and installing the `switch (id)` outcome. -/
theorem global_try_first_call (compact : Bool) (st : GObjState) (id : Nat)
    (hmem : id ∈ ecma_builtin_global_property_names compact)
    (hbit : st.maskProp.getD 0 &&& 2 ^ global_prop_index compact id = 0) :
    ecma_builtin_global_try_to_instantiate_property compact st (PropName.magic id) =
      global_install compact st id := by
  obtain ⟨i, hi, hki, hval⟩ := global_search_mem compact id hmem
  have htn : ((i : Int)).toNat = i := by omega
  unfold global_prop_index at hbit
  rw [hval, htn] at hbit
  unfold ecma_builtin_global_try_to_instantiate_property global_install global_prop_index
  simp only [ecma_is_string_magic]
  rw [hval, htn]
  rw [if_neg (by omega : ¬ ((i : Nat) : Int) = -1)]
  cases hmp : st.maskProp with
  | none =>
    have hread : global_read_or_create_mask st = (0, { st with maskProp := some 0 }) := by
      simp [global_read_or_create_mask, hmp]
    rw [hread]
    rw [if_neg (by simp : ¬ ((0 : Nat) &&& 2 ^ i ≠ 0))]
    rfl
  | some m =>
    have hread : global_read_or_create_mask st = (m, st) := by
      simp [global_read_or_create_mask, hmp]
    rw [hread]
    rw [hmp] at hbit
    have hbit' : m &&& 2 ^ i = 0 := by simpa using hbit
    rw [if_neg (by simp [hbit'] : ¬ (m &&& 2 ^ i ≠ 0))]
    rfl

/-- Classification of the `switch (id)` outcomes over the table: every table
member that is not an unimplemented member under the full profile produces a
data value or an accessor, never the fatal default. -/
theorem global_switch_not_fatal (compact : Bool) (id : Nat)
    (hmem : id ∈ ecma_builtin_global_property_names compact)
    (himpl : compact = true ∨ id ∉ global_unimplemented_members) (reg : EcmaState) :
    (∃ v w e c reg1, global_switch compact id reg = SwitchResult.dataVal v w e c reg1) ∨
    (∃ gs reg1, global_switch compact id reg = SwitchResult.accessor gs reg1) := by
  cases compact with
  | false =>
    have hni : id ∉ global_unimplemented_members := by
      rcases himpl with h | h
      · exact absurd h (by simp)
      · exact h
    fin_cases hmem <;>
      first
        | exact absurd (by decide) hni
        | exact Or.inl ⟨_, _, _, _, _, rfl⟩
  | true =>
    fin_cases hmem <;>
      first
        | exact Or.inl ⟨_, _, _, _, _, rfl⟩
        | exact Or.inr ⟨_, _, rfl⟩

/-- Under the compact profile the `switch (id)` body maps each unimplemented
member to the accessor outcome whose single get/set object is the
`CompactProfileError` singleton fetched from the registry. -/
theorem global_switch_unimplemented_accessor (id : Nat)
    (hmem : id ∈ global_unimplemented_members) (reg : EcmaState) :
    global_switch true id reg =
      SwitchResult.accessor
        (ptrOf (ecma_builtin_get jerryBuiltinTable ECMA_BUILTIN_ID_COMPACT_PROFILE_ERROR
          reg).1)
        (ecma_builtin_get jerryBuiltinTable ECMA_BUILTIN_ID_COMPACT_PROFILE_ERROR reg).2 := by
  fin_cases hmem <;> rfl

/-- Every unimplemented member is a Global property-name table entry (in both
profiles). -/
theorem global_unimplemented_subset_names (id : Nat)
    (hmem : id ∈ global_unimplemented_members) (compact : Bool) :
    id ∈ ecma_builtin_global_property_names compact := by
  cases compact <;> fin_cases hmem <;> decide

/-- C3 (amended): for every Global property-name table member whose
lazy-instantiation bit is not yet set — excluding, under the full profile,
the unimplemented members (Date, RegExp, the Error family, JSON), whose first
call signals the fatal `JERRY_UNIMPLEMENTED` instead — the first call creates
the property and sets the bitmask bit, and the second call returns NULL with
the state unchanged, never duplicating the property. -/
theorem global_try_to_instantiate_idempotent (compact : Bool) (id : Nat)
    (hmem : id ∈ ecma_builtin_global_property_names compact)
    (himpl : compact = true ∨ id ∉ global_unimplemented_members)
    (st : GObjState)
    (hbit : st.maskProp.getD 0 &&& 2 ^ global_prop_index compact id = 0) :
    ∃ p st1,
      ecma_builtin_global_try_to_instantiate_property compact st (PropName.magic id) =
        Outcome.normal (some p, st1) ∧
      st1.maskProp = some (st.maskProp.getD 0 ||| 2 ^ global_prop_index compact id) ∧
      st1.props = (PropName.magic id, p) :: st.props ∧
      ecma_builtin_global_try_to_instantiate_property compact st1 (PropName.magic id) =
        Outcome.normal (none, st1) := by
  have hfc := global_try_first_call compact st id hmem hbit
  rcases global_switch_not_fatal compact id hmem himpl st.reg with
    ⟨v, w, e, c, reg1, hsw⟩ | ⟨gs, reg1, hsw⟩
  · refine ⟨GProp.namedData v w e c,
      ⟨reg1, some (st.maskProp.getD 0 ||| 2 ^ global_prop_index compact id),
        (PropName.magic id, GProp.namedData v w e c) :: st.props⟩, ?_, rfl, rfl, ?_⟩
    · rw [hfc]
      unfold global_install
      rw [hsw]
    · exact global_try_mask_hit compact _ id hmem _ rfl (or_and_pow_ne_zero _ _)
  · refine ⟨GProp.namedAccessor gs gs true false,
      ⟨reg1, some (st.maskProp.getD 0 ||| 2 ^ global_prop_index compact id),
        (PropName.magic id, GProp.namedAccessor gs gs true false) :: st.props⟩,
      ?_, rfl, rfl, ?_⟩
    · rw [hfc]
      unfold global_install
      rw [hsw]
    · exact global_try_mask_hit compact _ id hmem _ rfl (or_and_pow_ne_zero _ _)

/-- C3 counterexample: under the full profile, `Date` is a Global
property-name table member with its bit still unset on the fresh Global
object, yet the first call does not create the property: it signals the
fatal `JERRY_UNIMPLEMENTED` condition. -/
theorem global_try_date_full_profile_fatal :
    ECMA_MAGIC_STRING_DATE_UL ∈ ecma_builtin_global_property_names false ∧
    global_init.maskProp = none ∧
    ecma_builtin_global_try_to_instantiate_property false global_init
      (PropName.magic ECMA_MAGIC_STRING_DATE_UL) = Outcome.fatal := by
  exact ⟨by decide, rfl, rfl⟩

/-- C3 witness: the amended idempotence theorem evaluated at the compact
profile, the `eval` property name and the fresh Global object. -/
theorem global_try_to_instantiate_idempotent_witness :
    ∃ p st1,
      ecma_builtin_global_try_to_instantiate_property true global_init
        (PropName.magic ECMA_MAGIC_STRING_EVAL) = Outcome.normal (some p, st1) ∧
      st1.maskProp =
        some (global_init.maskProp.getD 0 |||
          2 ^ global_prop_index true ECMA_MAGIC_STRING_EVAL) ∧
      st1.props = (PropName.magic ECMA_MAGIC_STRING_EVAL, p) :: global_init.props ∧
      ecma_builtin_global_try_to_instantiate_property true st1
        (PropName.magic ECMA_MAGIC_STRING_EVAL) = Outcome.normal (none, st1) :=
  global_try_to_instantiate_idempotent true ECMA_MAGIC_STRING_EVAL (by decide)
    (Or.inl rfl) global_init (by decide)

/-- C7: a lookup miss mutates nothing: a non-magic property name, or a
magic-string id absent from the Global property-name table, makes
`ecma_builtin_global_try_to_instantiate_property` return NULL with the state
(bitmask internal property and installed properties alike) unchanged. -/
theorem global_try_miss_no_mutation (compact : Bool) (st : GObjState) :
    (∀ s, ecma_builtin_global_try_to_instantiate_property compact st (PropName.other s) =
      Outcome.normal (none, st)) ∧
    (∀ id, id ∉ ecma_builtin_global_property_names compact →
      ecma_builtin_global_try_to_instantiate_property compact st (PropName.magic id) =
        Outcome.normal (none, st)) := by
  constructor
  · intro s
    rfl
  · intro id hnm
    have hs : ecma_builtin_bin_search_for_magic_string_id_in_array
        (ecma_builtin_global_property_names compact) id = -1 := by
      apply (bin_search_spec _ id (global_names_sorted compact)).2.mpr
      rintro ⟨j, hj, hjv⟩
      exact hnm (hjv ▸ list_getD_mem _ j hj)
    unfold ecma_builtin_global_try_to_instantiate_property
    simp only [ecma_is_string_magic]
    rw [if_pos hs]

/-- C7 witness: the miss theorem evaluated on the fresh Global object at a
non-magic name and at the magic string `length` (not a Global property). -/
theorem global_try_miss_no_mutation_witness :
    ecma_builtin_global_try_to_instantiate_property true global_init (PropName.other 0) =
      Outcome.normal (none, global_init) ∧
    ecma_builtin_global_try_to_instantiate_property true global_init
      (PropName.magic ECMA_MAGIC_STRING_LENGTH) = Outcome.normal (none, global_init) :=
  ⟨(global_try_miss_no_mutation true global_init).1 0,
   (global_try_miss_no_mutation true global_init).2 ECMA_MAGIC_STRING_LENGTH (by decide)⟩

/-- C9: under the compact profile, looking up an omitted member (Date,
RegExp, the Error family, JSON) whose bit is still unset installs and returns
a named accessor property — never a data property — whose getter and setter
are the identical object, namely the registry's `CompactProfileError`
singleton. -/
theorem global_try_compact_profile_accessor (id : Nat)
    (hmem : id ∈ global_unimplemented_members) (st : GObjState)
    (hbit : st.maskProp.getD 0 &&& 2 ^ global_prop_index true id = 0) :
    ∃ gs st1,
      ecma_builtin_global_try_to_instantiate_property true st (PropName.magic id) =
        Outcome.normal (some (GProp.namedAccessor gs gs true false), st1) ∧
      st1.reg.slots ECMA_BUILTIN_ID_COMPACT_PROFILE_ERROR = some gs ∧
      st1.props = (PropName.magic id, GProp.namedAccessor gs gs true false) :: st.props ∧
      st1.maskProp = some (st.maskProp.getD 0 ||| 2 ^ global_prop_index true id) := by
  have hmemn := global_unimplemented_subset_names id hmem true
  have hfc := global_try_first_call true st id hmemn hbit
  have hsw := global_switch_unimplemented_accessor id hmem st.reg
  obtain ⟨⟨o, ho⟩, hslot⟩ := ecma_builtin_get_slot jerryBuiltinTable
    ECMA_BUILTIN_ID_COMPACT_PROFILE_ERROR st.reg
  refine ⟨o,
    ⟨(ecma_builtin_get jerryBuiltinTable ECMA_BUILTIN_ID_COMPACT_PROFILE_ERROR st.reg).2,
     some (st.maskProp.getD 0 ||| 2 ^ global_prop_index true id),
     (PropName.magic id, GProp.namedAccessor o o true false) :: st.props⟩, ?_, ?_, rfl, rfl⟩
  · rw [hfc]
    unfold global_install
    rw [hsw, ho]
    rfl
  · show (ecma_builtin_get jerryBuiltinTable ECMA_BUILTIN_ID_COMPACT_PROFILE_ERROR
      st.reg).2.slots ECMA_BUILTIN_ID_COMPACT_PROFILE_ERROR = some o
    rw [hslot, ho]

/-- C9 witness: the compact-profile accessor theorem evaluated at `JSON` on
the fresh Global object. -/
theorem global_try_compact_profile_accessor_witness :
    ∃ gs st1,
      ecma_builtin_global_try_to_instantiate_property true global_init
        (PropName.magic ECMA_MAGIC_STRING_JSON_U) =
          Outcome.normal (some (GProp.namedAccessor gs gs true false), st1) ∧
      st1.reg.slots ECMA_BUILTIN_ID_COMPACT_PROFILE_ERROR = some gs ∧
      st1.props = (PropName.magic ECMA_MAGIC_STRING_JSON_U,
        GProp.namedAccessor gs gs true false) :: global_init.props ∧
      st1.maskProp = some (global_init.maskProp.getD 0 |||
        2 ^ global_prop_index true ECMA_MAGIC_STRING_JSON_U) :=
  global_try_compact_profile_accessor ECMA_MAGIC_STRING_JSON_U (by decide) global_init
    (by decide)

/-! ## Global routine dispatch (`ecma_builtin_global_dispatch_routine`)

The bodies of the individual routines (`parseInt`, `isNaN`, ...) are external
collaborators per the spec's scope; the dispatcher is verified against an
arbitrary family of handler functions with the same signatures as the C
handlers — each takes exactly its declared arguments and no `this` value. -/

/-- The `value_undefined` constant of the dispatcher:
`ecma_make_simple_value (ECMA_SIMPLE_VALUE_UNDEFINED)`. -/
def value_undefined : EV := EV.simple ECMA_SIMPLE_VALUE_UNDEFINED

/-- The `ROUTINE_ARG (n)` macro: the `n`-th (1-based) supplied argument, or
`value_undefined` when fewer than `n` arguments were supplied. -/
def ROUTINE_ARG (arguments_list : List EV) (n : Nat) : EV :=
  if arguments_list.length ≥ n then arguments_list.getD (n - 1) value_undefined
  else value_undefined

/-- The family of Global routine handlers the dispatcher routes to, one field
per `ECMA_BUILTIN_GLOBAL_OBJECT_ROUTINES_PROPERTY_LIST` row, with the exact
C signatures (one `ecma_value_t` per declared argument; no `this`
parameter). -/
structure GlobalHandlers (γ : Type) where
  ecma_builtin_global_object_eval : EV → γ
  ecma_builtin_global_object_parse_float : EV → γ
  ecma_builtin_global_object_is_nan : EV → γ
  ecma_builtin_global_object_is_finite : EV → γ
  ecma_builtin_global_object_decode_uri : EV → γ
  ecma_builtin_global_object_decode_uri_component : EV → γ
  ecma_builtin_global_object_encode_uri : EV → γ
  ecma_builtin_global_object_encode_uri_component : EV → γ
  ecma_builtin_global_object_parse_int : EV → EV → γ

/-- `ecma_builtin_global_dispatch_routine`: switch on the routine's
magic-string id, call the matching handler with `ROUTINE_ARG`-padded
arguments, and hit `JERRY_UNREACHABLE` on any other id.  The
`this_arg_value` parameter is declared `__unused` in the source and no
handler receives it. -/
def ecma_builtin_global_dispatch_routine {γ : Type} (H : GlobalHandlers γ)
    (builtin_routine_id : Nat) (_this_arg_value : EV) (arguments_list : List EV) :
    Outcome γ :=
  if builtin_routine_id = ECMA_MAGIC_STRING_EVAL then
    Outcome.normal (H.ecma_builtin_global_object_eval (ROUTINE_ARG arguments_list 1))
  else if builtin_routine_id = ECMA_MAGIC_STRING_PARSE_FLOAT then
    Outcome.normal (H.ecma_builtin_global_object_parse_float (ROUTINE_ARG arguments_list 1))
  else if builtin_routine_id = ECMA_MAGIC_STRING_IS_NAN then
    Outcome.normal (H.ecma_builtin_global_object_is_nan (ROUTINE_ARG arguments_list 1))
  else if builtin_routine_id = ECMA_MAGIC_STRING_IS_FINITE then
    Outcome.normal (H.ecma_builtin_global_object_is_finite (ROUTINE_ARG arguments_list 1))
  else if builtin_routine_id = ECMA_MAGIC_STRING_DECODE_URI then
    Outcome.normal (H.ecma_builtin_global_object_decode_uri (ROUTINE_ARG arguments_list 1))
  else if builtin_routine_id = ECMA_MAGIC_STRING_DECODE_URI_COMPONENT then
    Outcome.normal
      (H.ecma_builtin_global_object_decode_uri_component (ROUTINE_ARG arguments_list 1))
  else if builtin_routine_id = ECMA_MAGIC_STRING_ENCODE_URI then
    Outcome.normal (H.ecma_builtin_global_object_encode_uri (ROUTINE_ARG arguments_list 1))
  else if builtin_routine_id = ECMA_MAGIC_STRING_ENCODE_URI_COMPONENT then
    Outcome.normal
      (H.ecma_builtin_global_object_encode_uri_component (ROUTINE_ARG arguments_list 1))
  else if builtin_routine_id = ECMA_MAGIC_STRING_PARSE_INT then
    Outcome.normal (H.ecma_builtin_global_object_parse_int (ROUTINE_ARG arguments_list 1)
      (ROUTINE_ARG arguments_list 2))
  else Outcome.fatal

/-- C8: for every Global routine of declared arity `n` and every supplied
argument list of length `m < n`, the dispatcher invokes the routine's handler
with the `m` supplied arguments in order followed by `undefined` for each
remaining formal parameter, and returns a normal completion (never an error)
— the single-argument routines called with zero arguments receive
`undefined`, and `parseInt` (arity 2) called with zero or one argument has
its missing trailing arguments filled with `undefined`. -/
theorem ecma_builtin_global_dispatch_routine_pads_undefined {γ : Type}
    (H : GlobalHandlers γ) (this_arg_value a : EV) :
    ecma_builtin_global_dispatch_routine H ECMA_MAGIC_STRING_EVAL this_arg_value [] =
      Outcome.normal (H.ecma_builtin_global_object_eval value_undefined) ∧
    ecma_builtin_global_dispatch_routine H ECMA_MAGIC_STRING_PARSE_FLOAT this_arg_value [] =
      Outcome.normal (H.ecma_builtin_global_object_parse_float value_undefined) ∧
    ecma_builtin_global_dispatch_routine H ECMA_MAGIC_STRING_IS_NAN this_arg_value [] =
      Outcome.normal (H.ecma_builtin_global_object_is_nan value_undefined) ∧
    ecma_builtin_global_dispatch_routine H ECMA_MAGIC_STRING_IS_FINITE this_arg_value [] =
      Outcome.normal (H.ecma_builtin_global_object_is_finite value_undefined) ∧
    ecma_builtin_global_dispatch_routine H ECMA_MAGIC_STRING_DECODE_URI this_arg_value [] =
      Outcome.normal (H.ecma_builtin_global_object_decode_uri value_undefined) ∧
    ecma_builtin_global_dispatch_routine H ECMA_MAGIC_STRING_DECODE_URI_COMPONENT
        this_arg_value [] =
      Outcome.normal (H.ecma_builtin_global_object_decode_uri_component value_undefined) ∧
    ecma_builtin_global_dispatch_routine H ECMA_MAGIC_STRING_ENCODE_URI this_arg_value [] =
      Outcome.normal (H.ecma_builtin_global_object_encode_uri value_undefined) ∧
    ecma_builtin_global_dispatch_routine H ECMA_MAGIC_STRING_ENCODE_URI_COMPONENT
        this_arg_value [] =
      Outcome.normal (H.ecma_builtin_global_object_encode_uri_component value_undefined) ∧
    ecma_builtin_global_dispatch_routine H ECMA_MAGIC_STRING_PARSE_INT this_arg_value [] =
      Outcome.normal
        (H.ecma_builtin_global_object_parse_int value_undefined value_undefined) ∧
    ecma_builtin_global_dispatch_routine H ECMA_MAGIC_STRING_PARSE_INT this_arg_value [a] =
      Outcome.normal (H.ecma_builtin_global_object_parse_int a value_undefined) :=
  ⟨rfl, rfl, rfl, rfl, rfl, rfl, rfl, rfl, rfl, rfl⟩

/-- C10: the dispatcher's result does not depend on the `this` argument value
(declared `__unused` in the source): any two choices of `this_arg_value`
produce the same completion for every routine id and argument list, and no
handler signature even receives the `this` argument. -/
theorem ecma_builtin_global_dispatch_routine_this_irrelevant {γ : Type}
    (H : GlobalHandlers γ) (builtin_routine_id : Nat) (this1 this2 : EV)
    (arguments_list : List EV) :
    ecma_builtin_global_dispatch_routine H builtin_routine_id this1 arguments_list =
      ecma_builtin_global_dispatch_routine H builtin_routine_id this2 arguments_list :=
  rfl
